import Mathlib

/-!
Verification development for the telegram-mention-resender repository.

The Python sources are shallowly embedded: pure helpers become Lean
functions; the stateful message/reaction handlers become explicit
state-passing functions; the external chat client and the external LLM
evaluator are modelled as oracle parameters (functions supplied to the
embedded code).  Python truthiness of optional strings, the first-match
semantics of loops, and Python attribute lookup on the structured
evaluation result are modelled explicitly, because several claims hinge
on them.

String handling caveat: Char.toLower and the character classes used
here are exact on the ASCII range; the Unicode tables behind the Python
regex class backslash-w and str.lower are not reproduced.  Theorems and
concrete inputs in this file stay inside the ASCII range.
-/

/-! ## Python-semantics helpers -/

/-- Truthiness of an optional Python string: None and the empty string
are falsy, every other string is truthy.  Used for fields such as
message.raw_text, prompt.prompt and the optional entity names. -/
def pyTruthy : Option String → Bool
  | none => false
  | some s => s != ""

/-- Python str.lower, restricted to ASCII case mapping. -/
def pyLower (s : String) : String :=
  String.mk (s.toList.map Char.toLower)

/-- Python substring containment, the expression needle in haystack. -/
def pyIn (needle haystack : String) : Bool :=
  decide (needle.toList <:+: haystack.toList)

/-! ## telegram_utils.py: word matching -/

/-- From src/telegram_utils.py, word_in_text: true if any of the words
occurs case-insensitively as a substring of the text. -/
def word_in_text (words : List String) (text : String) : Bool :=
  words.any (fun word => pyIn (pyLower word) (pyLower text))

/-- From src/telegram_utils.py, find_word: the first word of the list
that occurs case-insensitively as a substring of the text. -/
def find_word (words : List String) (text : String) : Option String :=
  words.find? (fun word => pyIn (pyLower word) (pyLower text))

/-! ## telegram_utils.py: get_safe_name -/

/-- Characters removed by Python str.strip() with no argument, within
the ASCII range: space, tab, newline, carriage return, vertical tab and
form feed. -/
def pyWhitespace (c : Char) : Bool :=
  c = ' ' || c = '\t' || c = '\n' || c = '\r' || c = '\x0b' || c = '\x0c'

/-- Python str.strip(): drop leading and trailing whitespace. -/
def pyStrip (s : String) : String :=
  String.mk (((s.toList.dropWhile pyWhitespace).reverse.dropWhile pyWhitespace).reverse)

/-- The character class of the regex used by get_safe_name: a word
character (letter, digit or underscore; ASCII fragment of the Unicode
class), a hyphen, an underscore or a period.  Characters outside this
class are replaced by underscores. -/
def safeNameChar (c : Char) : Bool :=
  (('a' ≤ c && c ≤ 'z') || ('A' ≤ c && c ≤ 'Z') || ('0' ≤ c && c ≤ '9')
    || c = '_' || c = '-' || c = '.')

/-- The substitution pass of get_safe_name: every character outside the
safe class becomes an underscore. -/
def safeNameSub (s : String) : String :=
  String.mk (s.toList.map (fun c => if safeNameChar c then c else '_'))

/-- From src/telegram_utils.py, get_safe_name: strip the name, replace
excluded characters by underscores, and fall back to the fixed token when
the result is the empty string (Python or on strings). -/
def get_safe_name (name : String) : String :=
  let safe := safeNameSub (pyStrip name)
  if safe = "" then "chat_history" else safe

/-! ## stats.py: the statistics tracker -/

/-- From src/stats.py, the Stats dataclass: counters for processed
messages, all defaulting to zero. -/
structure Stats where
  total : Nat := 0
  forwarded_total : Nat := 0
  forwarded_words : Nat := 0
  forwarded_prompt : Nat := 0
  tokens : Nat := 0
deriving DecidableEq, Repr

/-- One entry of the instances list of the tracker data: name, counters,
per-day counters (an insertion-ordered mapping from day string to
counters, as the Python dict), and the legacy tokens counter. -/
structure InstEntry where
  name : String
  stats : Stats := {}
  days : List (String × Stats) := []
  tokens : Nat := 0
deriving DecidableEq, Repr

/-- The tracker data dictionary: global counters plus the per-instance
list.  The path, dirty flag and flush timer of StatsTracker are not
modelled; flushing is modelled as serialising this data (see
TrackerData.toJson). -/
structure TrackerData where
  stats : Stats := {}
  instances : List InstEntry := []
deriving DecidableEq, Repr

/-- The tracker data of a freshly constructed StatsTracker when no
stats file exists. -/
def emptyTracker : TrackerData := {}

/-- One scope update of StatsTracker.increment: total always grows by
one; the forwarded counters grow when the corresponding flags are set. -/
def Stats.bump (s : Stats) (forwarded used_word used_prompt : Bool) : Stats :=
  { s with
    total := s.total + 1
    forwarded_total := s.forwarded_total + (if forwarded then 1 else 0)
    forwarded_words := s.forwarded_words + (if forwarded && used_word then 1 else 0)
    forwarded_prompt := s.forwarded_prompt + (if forwarded && used_prompt then 1 else 0) }

/-- Update the first list entry whose key matches, mirroring a Python
dict update through a reference returned by setdefault. -/
def updateFirstDay (day : String) (f : Stats → Stats) :
    List (String × Stats) → List (String × Stats)
  | [] => []
  | (d, s) :: rest =>
    if d = day then (d, f s) :: rest else (d, s) :: updateFirstDay day f rest

/-- The days dict after inst["days"].setdefault(day, fresh): unchanged
when the day is present, otherwise the fresh entry is appended. -/
def setdefaultDay (day : String) (days : List (String × Stats)) :
    List (String × Stats) :=
  if days.any (fun e => e.1 = day) then days else days ++ [(day, ({} : Stats))]

/-- Update the first instance entry with the given name, mirroring
_get_inst which returns the first matching dict of the list. -/
def updateFirstInst (name : String) (f : InstEntry → InstEntry) :
    List InstEntry → List InstEntry
  | [] => []
  | e :: rest =>
    if e.name = name then f e :: rest else e :: updateFirstInst name f rest

/-- From src/stats.py, StatsTracker._get_inst combined with increment:
the instances list after making sure an entry for the name exists (a
missing entry is appended at the end, as in the Python code). -/
def getInstList (name : String) (l : List InstEntry) : List InstEntry :=
  if l.any (fun e => e.name = name) then l else l ++ [{ name := name }]

/-- From src/stats.py, StatsTracker.increment: bump the global scope,
the per-instance scope and the per-instance current-day scope.  The
current day string is passed as a parameter (current_day reads the
clock). -/
def TrackerData.increment (d : TrackerData) (name day : String)
    (forwarded : Bool := false) (used_word : Bool := false)
    (used_prompt : Bool := false) : TrackerData :=
  let insts := getInstList name d.instances
  { stats := d.stats.bump forwarded used_word used_prompt
    instances := updateFirstInst name
      (fun e =>
        { e with
          stats := e.stats.bump forwarded used_word used_prompt
          days := updateFirstDay day (fun s => s.bump forwarded used_word used_prompt)
            (setdefaultDay day e.days) })
      insts }

/-- From src/stats.py, StatsTracker.add_tokens: credit tokens to the
global scope, the instance scope and the legacy per-instance counter;
non-positive counts are ignored. -/
def TrackerData.addTokens (d : TrackerData) (name : String) (tokens : Nat) : TrackerData :=
  if tokens = 0 then d
  else
    let insts := getInstList name d.instances
    { stats := { d.stats with tokens := d.stats.tokens + tokens }
      instances := updateFirstInst name
        (fun e =>
          { e with
            stats := { e.stats with tokens := e.stats.tokens + tokens }
            tokens := e.tokens + tokens })
        insts }

/-! ## stats.py: persistence (flush and reload)

The flush method serialises the data dictionary with json.dump; the
constructor reads it back with json.load.  The JSON subset reachable
from the tracker data is modelled below, with object fields kept in
insertion order as Python dicts do. -/

/-- A JSON value, as written by json.dump for the stats file. -/
inductive Json where
  | num (n : Nat)
  | str (s : String)
  | arr (elems : List Json)
  | obj (fields : List (String × Json))

/-- Field lookup in a JSON object, as Python dict indexing. -/
def jsonLookup (fields : List (String × Json)) (k : String) : Option Json :=
  (fields.find? (fun f => f.1 = k)).map (fun f => f.2)

/-- Read a numeric field with a default, as the dict .get(k, 0) accesses
that the tracker performs on loaded data. -/
def jsonNatD (fields : List (String × Json)) (k : String) : Nat :=
  match jsonLookup fields k with
  | some (.num n) => n
  | _ => 0

/-- Stats.to_dict (via dataclasses.asdict): field order as declared. -/
def Stats.toJson (s : Stats) : Json :=
  .obj [("total", .num s.total), ("forwarded_total", .num s.forwarded_total),
        ("forwarded_words", .num s.forwarded_words),
        ("forwarded_prompt", .num s.forwarded_prompt), ("tokens", .num s.tokens)]

/-- Reading a counters dict back, with the .get defaults used by the
tracker when it later touches the loaded scopes. -/
def Stats.fromJson : Json → Stats
  | .obj fields =>
    { total := jsonNatD fields "total"
      forwarded_total := jsonNatD fields "forwarded_total"
      forwarded_words := jsonNatD fields "forwarded_words"
      forwarded_prompt := jsonNatD fields "forwarded_prompt"
      tokens := jsonNatD fields "tokens" }
  | _ => {}

/-- Serialise one instance entry, with the key order produced by
_get_inst when it creates the dict. -/
def InstEntry.toJson (e : InstEntry) : Json :=
  .obj [("name", .str e.name), ("stats", e.stats.toJson),
        ("days", .obj (e.days.map (fun d => (d.1, Json.obj [("stats", d.2.toJson)])))),
        ("tokens", .num e.tokens)]

/-- Read one day entry back: a dict with a stats sub-dict. -/
def dayFromJson (d : String × Json) : String × Stats :=
  match d.2 with
  | .obj fields =>
    (d.1, match jsonLookup fields "stats" with
          | some j => Stats.fromJson j
          | none => ({} : Stats))
  | _ => (d.1, ({} : Stats))

/-- Read one instance entry back. -/
def InstEntry.fromJson : Json → InstEntry
  | .obj fields =>
    { name := match jsonLookup fields "name" with
              | some (.str s) => s
              | _ => ""
      stats := match jsonLookup fields "stats" with
               | some j => Stats.fromJson j
               | none => {}
      days := match jsonLookup fields "days" with
              | some (.obj ds) => ds.map dayFromJson
              | _ => []
      tokens := jsonNatD fields "tokens" }
  | _ => { name := "" }

/-- StatsTracker.flush writes exactly this JSON document. -/
def TrackerData.toJson (d : TrackerData) : Json :=
  .obj [("stats", d.stats.toJson),
        ("instances", .arr (d.instances.map InstEntry.toJson))]

/-- The StatsTracker constructor on an existing file: json.load followed
by the shape check.  A document carrying the top-level stats key is used
as is; the legacy-format conversion branch (convert) is outside the
scope of the claims settled here and maps to none. -/
def TrackerData.fromJson : Json → Option TrackerData
  | .obj fields =>
    match jsonLookup fields "stats" with
    | some j =>
      some { stats := Stats.fromJson j
             instances := match jsonLookup fields "instances" with
                          | some (.arr l) => l.map InstEntry.fromJson
                          | _ => [] }
    | none => none
  | _ => none

/-! ## prompts.py: Prompt, EvaluateResult and match_prompt -/

/-- From src/prompts.py, the Prompt dataclass (the Langfuse registry
linkage fields do not enter the matching logic and are omitted).  The
threshold may be absent in the configuration, in which case the loader
stores None. -/
structure Prompt where
  name : Option String := none
  prompt : Option String := none
  threshold : Option Int := some 4
deriving DecidableEq, Repr

/-- The expression p.threshold or 4 of app.process_message: Python
treats both None and 0 as falsy, so both fall back to 4. -/
def Prompt.effThreshold (p : Prompt) : Int :=
  match p.threshold with
  | none => 4
  | some t => if t = 0 then 4 else t

/-- From src/prompts.py, the EvaluateResult model: an integer similarity
and the best-matching fragment.  These are the only two attributes the
object carries. -/
structure EvaluateResult where
  similarity : Int
  main_fragment : String := ""
deriving DecidableEq, Repr

/-- Python attribute lookup on an EvaluateResult, for integer-valued
attributes: only similarity exists; any other name is an attribute
error (carried as the error value). -/
def EvaluateResult.getattrInt (r : EvaluateResult) (a : String) : Except String Int :=
  if a = "similarity" then .ok r.similarity else .error a

/-- Python attribute lookup on an EvaluateResult, for string-valued
attributes: only main_fragment exists; any other name is an attribute
error. -/
def EvaluateResult.getattrStr (r : EvaluateResult) (a : String) : Except String String :=
  if a = "main_fragment" then .ok r.main_fragment else .error a

/-- The configuration consulted by match_prompt: presence of the OpenAI
credentials (config.get of the key openai_api_key). -/
structure PromptsConfig where
  openai_api_key : Option String := none

/-- The outcome of one call to the external LLM evaluator: either the
parsed structured result, or any raised failure (timeout, malformed
response, transport error) carried as an error value. -/
abbrev EvalCall := Except String EvaluateResult

/-- From src/prompts.py, match_prompt, with the external OpenAI call
abstracted as the call outcome parameter: an empty or missing prompt
text or missing credentials short-circuit to a zero result; a failure
of the external call is absorbed into a zero result; a successful call
returns the parsed result unchanged (no clamping is applied).  The
token accounting and observability side effects do not alter the
returned result and are not modelled. -/
def match_prompt (cfg : PromptsConfig) (call : EvalCall) (p : Prompt)
    (_text : String) : EvaluateResult :=
  if !(pyTruthy p.prompt) || !(pyTruthy cfg.openai_api_key) then
    { similarity := 0, main_fragment := "" }
  else
    match call with
    | .ok r => r
    | .error _ => { similarity := 0, main_fragment := "" }

/-! ## app.py: process_message -/

/-- From src/config.py, the Instance dataclass, restricted to the
fields consulted by process_message up to the forwarding decision.  The
destination fields and the folder bookkeeping belong to the forwarding
and rescan code modelled separately. -/
structure Instance where
  name : String
  words : List String := []
  negative_words : List String := []
  ignore_words : List String := []
  prompts : List Prompt := []
deriving Repr

/-- An incoming message as process_message sees it: raw_text is None
for media messages without text. -/
structure Message where
  raw_text : Option String := none
deriving Repr

/-- The mutable locals of the prompt loop of process_message. -/
structure ScanSt where
  used_score : Int := 0
  used_prompt : Option Nat := none
  used_quote : Option String := none
  used_reasoning : Option String := none
  forward : Bool := false
deriving DecidableEq, Repr

/-- The initial loop state: score zero, nothing selected. -/
def ScanSt.init : ScanSt := {}

/-- One iteration of the prompt loop of process_message (prompt index i):
evaluate the prompt, read the score attribute of the result, track the
running best on a strict improvement (reading the quote and reasoning
attributes), and stop with forward set when the score reaches the own
threshold of the prompt.  Attribute lookups go through the EvaluateResult
attribute table; a missing attribute surfaces as an error, as the Python
AttributeError would. -/
def scanStep (cfg : PromptsConfig) (call : EvalCall) (p : Prompt) (i : Nat)
    (text : String) (st : ScanSt) : Except String (ScanSt × Bool) := do
  let res := match_prompt cfg call p text
  let sc ← res.getattrInt "score"
  let st' ←
    if sc > st.used_score then do
      let q ← res.getattrStr "quote"
      let rs ← res.getattrStr "reasoning"
      pure { st with used_score := sc, used_prompt := some i,
                     used_quote := some q, used_reasoning := some rs }
    else pure st
  if sc ≥ p.effThreshold then pure ({ st' with forward := true }, true)
  else pure (st', false)

/-- Result of running the prompt loop: the final locals plus the list of
prompt indices that were evaluated, or the attribute error that escaped,
again with the indices evaluated up to that point. -/
inductive ScanRes where
  | ok (st : ScanSt) (evaluated : List Nat)
  | err (attr : String) (evaluated : List Nat)
deriving DecidableEq, Repr

/-- The prompt loop of process_message over the prompt list, breaking as
soon as an iteration sets forward.  The evaluator oracle gives the
outcome of the external call for each prompt index. -/
def scanPrompts (cfg : PromptsConfig) (oracle : Nat → EvalCall) (text : String) :
    List Prompt → Nat → ScanSt → List Nat → ScanRes
  | [], _, st, ev => .ok st ev
  | p :: rest, i, st, ev =>
    match scanStep cfg (oracle i) p i text st with
    | .error a => .err a (ev ++ [i])
    | .ok (st', true) => .ok st' (ev ++ [i])
    | .ok (st', false) => scanPrompts cfg oracle text rest (i + 1) st' (ev ++ [i])

/-- The observable outcome of process_message up to the forwarding
decision: an early return on ignore or negative words, an escaped
attribute error from the prompt loop, or a completed decision with the
forward flag, the matched word if any, and the final loop locals. -/
inductive PMOutcome where
  | droppedIgnore
  | droppedNegative
  | attrError (attr : String)
  | decided (forward : Bool) (used_word : Option String) (st : ScanSt)
deriving DecidableEq, Repr

/-- What process_message did: its outcome, which prompts it evaluated,
and the tracker data afterwards. -/
structure PMResult where
  outcome : PMOutcome
  evaluated : List Nat
  stats : TrackerData
deriving DecidableEq, Repr

/-- From src/app.py, process_message, up to the forwarding decision (the
send and forward calls after the decision perform chat output only): the
ignore-words check and the negative-words check return before the
statistics increment; then the tracker counts the message; then, when
the message has truthy text, the first matching trigger word decides the
forward, and only when no word matches the prompt loop runs. -/
def process_message (cfg : PromptsConfig) (oracle : Nat → EvalCall)
    (day : String) (inst : Instance) (msg : Message) (stats : TrackerData) :
    PMResult :=
  let text := msg.raw_text.getD ""
  if pyTruthy msg.raw_text && word_in_text inst.ignore_words text then
    { outcome := .droppedIgnore, evaluated := [], stats := stats }
  else if pyTruthy msg.raw_text && word_in_text inst.negative_words text then
    { outcome := .droppedNegative, evaluated := [], stats := stats }
  else
    let stats := stats.increment inst.name day
    if pyTruthy msg.raw_text then
      match find_word inst.words text with
      | some w =>
        { outcome := .decided true (some w) ScanSt.init, evaluated := [], stats := stats }
      | none =>
        match scanPrompts cfg oracle text inst.prompts 0 ScanSt.init [] with
        | .ok st ev => { outcome := .decided st.forward none st, evaluated := ev, stats := stats }
        | .err a ev => { outcome := .attrError a, evaluated := ev, stats := stats }
    else
      { outcome := .decided false none ScanSt.init, evaluated := [], stats := stats }

/-! ## telegram_utils.py and app.py: chat-id normalisation and refresh -/

/-- From src/telegram_utils.py, to_event_chat_id on an integer peer: a
non-positive id is already in event format; a positive id is resolved
through the chat client (get_input_entity then get_peer_id, abstracted
as the resolve oracle), and a failed resolution falls back to the
negated id. -/
def to_event_chat_id (resolve : Int → Option Int) (peer : Int) : Int :=
  if peer ≤ 0 then peer
  else
    match resolve peer with
    | some pid => pid
    | none => -peer

/-- From src/telegram_utils.py, normalize_chat_ids: normalise every id
of the set (on integer ids the conversion never yields None, so the
final None filter drops nothing). -/
def normalize_chat_ids (resolve : Int → Option Int) (ids : Finset Int) : Finset Int :=
  ids.image (to_event_chat_id resolve)

/-- From src/app.py, update_instance_chat_ids, with the chat client
abstracted: the folder members and the resolved extra entities are
oracle-provided id sets, the previous chat_ids of the instance are
unioned in, and the union is normalised to event format.  The returned
set is the new chat_ids of the instance. -/
def update_instance_chat_ids (resolve : Int → Option Int)
    (folderIds entityIds : Finset Int) (chat_ids : Finset Int) : Finset Int :=
  normalize_chat_ids resolve (folderIds ∪ chat_ids ∪ entityIds)

/-! ## app.py: handle_reaction -/

/-- From src/app.py: the reaction emoji treated as positive feedback. -/
def POSITIVE_REACTIONS : List String := ["👍"]

/-- From src/app.py: the reaction emoji treated as negative feedback. -/
def NEGATIVE_REACTIONS : List String := ["👎"]

/-- A reaction update as handle_reaction consumes it: the event chat id
of the peer (to_event_chat_id applied to update.peer), the message id,
and the emoji of the reaction counts carried by the update. -/
structure RUpdate where
  peer_id : Int
  msg_id : Int
  emojis : List String
deriving Repr

/-- Whether the update carries a positive reaction. -/
def RUpdate.isPositive (u : RUpdate) : Bool :=
  u.emojis.any (fun e => POSITIVE_REACTIONS.contains e)

/-- Whether the update carries a negative reaction. -/
def RUpdate.isNegative (u : RUpdate) : Bool :=
  u.emojis.any (fun e => NEGATIVE_REACTIONS.contains e)

/-- The fields of an Instance consulted by handle_reaction. -/
structure RInstance where
  target_entity : Option String := none
  true_positive_entity : Option String := none
  false_positive_entity : Option String := none
deriving Repr

/-- The module-level dedup sets of src/app.py: keys (chat id, message
id) already forwarded as positive and as negative feedback. -/
structure RState where
  fwdPos : List (Int × Int) := []
  fwdNeg : List (Int × Int) := []
deriving DecidableEq, Repr

/-- The instance loop of handle_reaction: skip instances without a
truthy target entity, skip instances whose resolved target does not
match the chat of the reaction; for a matching instance pick the
destination by polarity (positive wins when both polarities are
present), skip the instance when that destination is not configured,
return outright when the message cannot be fetched, and otherwise
forward once, record the key for the polarity, and stop. -/
def reactionLoop (resolveEnt : String → Int) (getMsg : Int → Int → Bool)
    (positive negative : Bool) (key : Int × Int) (peer_id : Int) (st : RState) :
    List RInstance → RState × List String
  | [] => (st, [])
  | inst :: rest =>
    if !(pyTruthy inst.target_entity) then
      reactionLoop resolveEnt getMsg positive negative key peer_id st rest
    else if peer_id ≠ resolveEnt (inst.target_entity.getD "") then
      reactionLoop resolveEnt getMsg positive negative key peer_id st rest
    else
      let dest := if positive then inst.true_positive_entity
                  else if negative then inst.false_positive_entity
                  else none
      if !(pyTruthy dest) then
        reactionLoop resolveEnt getMsg positive negative key peer_id st rest
      else if !(getMsg peer_id key.2) then (st, [])
      else
        let st' := if positive then { st with fwdPos := st.fwdPos.insert key }
                   else if negative then { st with fwdNeg := st.fwdNeg.insert key }
                   else st
        (st', [dest.getD ""])

/-- From src/app.py, handle_reaction, with the chat client abstracted:
resolveEnt resolves a target entity name to its event chat id, getMsg
reports whether the reacted message can be fetched.  Returns the new
dedup state and the list of destinations the message was forwarded to
(at most one per call). -/
def handle_reaction (resolveEnt : String → Int) (getMsg : Int → Int → Bool)
    (instances : List RInstance) (u : RUpdate) (st : RState) :
    RState × List String :=
  let positive := u.isPositive
  let negative := u.isNegative
  if !(positive || negative) then (st, [])
  else
    let key := (u.peer_id, u.msg_id)
    if positive && st.fwdPos.contains key then (st, [])
    else if negative && st.fwdNeg.contains key then (st, [])
    else reactionLoop resolveEnt getMsg positive negative key u.peer_id st instances

/-! ## Helper lemmas -/

/-- A truthy optional string is exactly a some of a nonempty string. -/
theorem pyTruthy_some (t : String) (h : t ≠ "") : pyTruthy (some t) = true := by
  simp [pyTruthy, h]

/-- Packing a character list yields the empty string only for the empty
list. -/
theorem string_mk_eq_empty_iff (l : List Char) : String.mk l = "" ↔ l = [] := by
  constructor
  · intro h
    simpa using congrArg String.data h
  · intro h
    subst h
    rfl

/-- The substitution pass never turns a nonempty string empty. -/
theorem safeNameSub_eq_empty_iff (t : String) : safeNameSub t = "" ↔ t = "" := by
  unfold safeNameSub
  rw [string_mk_eq_empty_iff, List.map_eq_nil_iff]
  constructor
  · intro h
    have : t.data = [] := h
    cases t
    simpa [string_mk_eq_empty_iff] using this
  · intro h
    subst h
    rfl

/-- word_in_text fires exactly when find_word finds a word. -/
theorem word_in_text_eq_isSome (words : List String) (text : String) :
    word_in_text words text = (find_word words text).isSome := by
  unfold word_in_text find_word
  rw [Bool.eq_iff_iff, List.any_eq_true, ← List.find?_isSome]

/-! ## Claim C9: get_safe_name -/

/-- Claim C9, counterexample.  An input made only of invalid characters
does not return the fallback token: the exclamation mark becomes an
underscore and the result is the underscore string; and a character
stripped as trailing whitespace is removed rather than replaced by an
underscore. -/
theorem get_safe_name_counterexample :
    get_safe_name "!" = "_" ∧ get_safe_name "!" ≠ "chat_history" ∧
      get_safe_name "a " = "a" := by
  refine ⟨by decide, by decide, by decide⟩

/-- Claim C9, amended: get_safe_name first strips leading and trailing
whitespace, then replaces every remaining character outside the safe
class with an underscore; the fallback token is returned exactly when
the stripped input is empty, so a nonempty all-invalid input yields a
string of underscores, not the fallback. -/
theorem get_safe_name_amended (s : String) :
    get_safe_name s =
      (if pyStrip s = "" then "chat_history" else safeNameSub (pyStrip s)) := by
  unfold get_safe_name
  by_cases h : pyStrip s = ""
  · rw [if_pos h, if_pos]
    rw [safeNameSub_eq_empty_iff]
    exact h
  · rw [if_neg h, if_neg]
    rw [safeNameSub_eq_empty_iff]
    exact h

/-! ## Claim C8: the evaluation score is not clamped -/

/-- Claim C8, counterexample.  With credentials configured and a
nonempty prompt, an evaluator response carrying similarity 7 is returned
unchanged by match_prompt: the produced result is not bounded to the
interval from 0 to 5. -/
theorem match_prompt_unbounded_counterexample :
    match_prompt { openai_api_key := some "k" }
        (.ok { similarity := 7 }) { prompt := some "find it" } "msg" =
      { similarity := 7, main_fragment := "" } ∧
    ¬((match_prompt { openai_api_key := some "k" }
        (.ok { similarity := 7 }) { prompt := some "find it" } "msg").similarity ≤ 5) := by
  refine ⟨by decide, by decide⟩

/-- Claim C8, amended: one prompt application returns either the exact
zero result (empty or unhydrated prompt text, missing credentials, or an
absorbed evaluator failure) or the parsed evaluator response unchanged;
no clamping to the interval from 0 to 5 is applied, so the score is
bounded only when the evaluator response is. -/
theorem match_prompt_result_shape (cfg : PromptsConfig) (call : EvalCall)
    (p : Prompt) (text : String) :
    match_prompt cfg call p text = { similarity := 0, main_fragment := "" } ∨
      ∃ r, call = .ok r ∧ match_prompt cfg call p text = r := by
  unfold match_prompt
  by_cases h : (!(pyTruthy p.prompt) || !(pyTruthy cfg.openai_api_key)) = true
  · rw [if_pos h]
    exact Or.inl rfl
  · rw [if_neg h]
    cases call with
    | ok r => exact Or.inr ⟨r, rfl, rfl⟩
    | error e => exact Or.inl rfl

/-! ## Claim C5: match_prompt absorbs failures -/

/-- Claim C5: match_prompt is a total function of the call outcome (the
embedding returns a result for every oracle behaviour), and it returns
the deterministic zero result with empty evidence when the prompt text
is not truthy, when the credentials are not configured, and when the
evaluator call fails; the failure is absorbed, never propagated. -/
theorem match_prompt_absorbs (cfg : PromptsConfig) (call : EvalCall)
    (p : Prompt) (text : String) :
    (pyTruthy p.prompt = false →
      match_prompt cfg call p text = { similarity := 0, main_fragment := "" }) ∧
    (pyTruthy cfg.openai_api_key = false →
      match_prompt cfg call p text = { similarity := 0, main_fragment := "" }) ∧
    (∀ e, call = .error e →
      match_prompt cfg call p text = { similarity := 0, main_fragment := "" }) := by
  refine ⟨fun h => ?_, fun h => ?_, fun e h => ?_⟩
  · simp [match_prompt, h]
  · simp [match_prompt, h]
  · subst h
    unfold match_prompt
    by_cases hc : (!(pyTruthy p.prompt) || !(pyTruthy cfg.openai_api_key)) = true
    · rw [if_pos hc]
    · rw [if_neg hc]

/-- Claim C5, witness: the three absorption cases at concrete inputs. -/
theorem match_prompt_absorbs_witness :
    match_prompt { openai_api_key := some "k" } (.ok { similarity := 4 })
        { prompt := none } "t" = { similarity := 0, main_fragment := "" } ∧
    match_prompt { openai_api_key := none } (.ok { similarity := 4 })
        { prompt := some "p" } "t" = { similarity := 0, main_fragment := "" } ∧
    match_prompt { openai_api_key := some "k" } (.error "timeout")
        { prompt := some "p" } "t" = { similarity := 0, main_fragment := "" } := by
  refine ⟨(match_prompt_absorbs { openai_api_key := some "k" }
      (.ok { similarity := 4 }) { prompt := none } "t").1 rfl,
    (match_prompt_absorbs { openai_api_key := none }
      (.ok { similarity := 4 }) { prompt := some "p" } "t").2.1 rfl,
    (match_prompt_absorbs { openai_api_key := some "k" }
      (.error "timeout") { prompt := some "p" } "t").2.2 "timeout" rfl⟩

/-! ## Claim C6: stats counters and persistence round trip -/

/-- The tracker data after the three increments of the claim scenario:
twice forwarded by word, once not forwarded. -/
def c6Tracker : TrackerData :=
  ((emptyTracker.increment "i" "2024-01-01" true true false).increment
      "i" "2024-01-01" true true false).increment "i" "2024-01-01"

/-- Claim C6: from an empty tracker, incrementing twice with forwarded
and used_word set and once with forwarded unset yields the global
counters 3, 2, 2, 0, and decoding the flushed JSON document reproduces
the tracker data exactly. -/
theorem stats_increment_roundtrip :
    c6Tracker.stats.total = 3 ∧
    c6Tracker.stats.forwarded_total = 2 ∧
    c6Tracker.stats.forwarded_words = 2 ∧
    c6Tracker.stats.forwarded_prompt = 0 ∧
    TrackerData.fromJson c6Tracker.toJson = some c6Tracker := by
  refine ⟨rfl, rfl, rfl, rfl, by decide⟩

/-! ## Claim C1: the prompt scan of process_message -/

/-- Claim C1: the prompt loop of process_message reads the score, quote
and reasoning attributes of the evaluation result, but EvaluateResult
only carries similarity and main_fragment; on the scenario of the claim
(one prompt whose evaluation scores 5 against threshold 4, text matching
no word) the loop evaluates the first prompt and then raises an
attribute error instead of deciding a forward.  This matches the failure
of the test test_process_message_prompt of tests/test_main_flow.py. -/
theorem process_message_prompt_attr_error :
    process_message { openai_api_key := some "k" }
        (fun _ => .ok { similarity := 5 }) "2024-01-01"
        { name := "p", prompts := [{ name := some "hi", prompt := some "hi" }] }
        { raw_text := some "hello" } emptyTracker =
      { outcome := .attrError "score", evaluated := [0],
        stats := emptyTracker.increment "p" "2024-01-01" } := by
  decide

/-! ## Claim C2: ignore words drop the message before everything else -/

/-- Claim C2: for any instance and any message with truthy text matching
an ignore word case-insensitively, process_message returns the dropped
outcome with no prompt evaluated (for every evaluator oracle) and the
tracker untouched, regardless of the words and prompts of the
instance. -/
theorem process_message_ignore_drops (cfg : PromptsConfig)
    (oracle : Nat → EvalCall) (day : String) (inst : Instance) (msg : Message)
    (stats : TrackerData) (t : String) (ht : msg.raw_text = some t)
    (hne : t ≠ "") (hig : word_in_text inst.ignore_words t = true) :
    process_message cfg oracle day inst msg stats =
      { outcome := .droppedIgnore, evaluated := [], stats := stats } := by
  have htr := pyTruthy_some t hne
  simp [process_message, ht, htr, hig]

/-- Concrete instance for the ignore-words witness: the message matches
both an ignore word and a trigger word, and carries a prompt that would
score; the drop still wins. -/
def instC2 : Instance :=
  { name := "n", words := ["hi"], ignore_words := ["spam"],
    prompts := [{ prompt := some "find it" }] }

/-- Claim C2, witness: a concrete message matching the ignore word
(case-insensitively) is dropped with no evaluation and unchanged
stats. -/
theorem process_message_ignore_drops_witness :
    process_message { openai_api_key := some "k" }
        (fun _ => .ok { similarity := 5 }) "2024-01-01" instC2
        { raw_text := some "SPAM hi" } emptyTracker =
      { outcome := .droppedIgnore, evaluated := [], stats := emptyTracker } :=
  process_message_ignore_drops { openai_api_key := some "k" }
    (fun _ => .ok { similarity := 5 }) "2024-01-01" instC2
    { raw_text := some "SPAM hi" } emptyTracker "SPAM hi" rfl (by decide)
    (by decide)

/-! ## Claim C3: keyword match short-circuits prompt evaluation -/

/-- Claim C3: for any instance and any message with truthy text that
matches a trigger word (and no ignore or negative word), the decision is
a forward via the first matching word (find_word returns the first
match of the configured list) and no prompt is ever evaluated, for every
evaluator oracle, even one that would score above every threshold. -/
theorem process_message_word_first (cfg : PromptsConfig)
    (oracle : Nat → EvalCall) (day : String) (inst : Instance) (msg : Message)
    (stats : TrackerData) (t : String) (ht : msg.raw_text = some t)
    (hne : t ≠ "") (hig : word_in_text inst.ignore_words t = false)
    (hneg : word_in_text inst.negative_words t = false)
    (hw : word_in_text inst.words t = true) :
    process_message cfg oracle day inst msg stats =
      { outcome := .decided true (find_word inst.words t) ScanSt.init,
        evaluated := [], stats := stats.increment inst.name day } := by
  have htr := pyTruthy_some t hne
  have hfs : (find_word inst.words t).isSome := by
    rw [← word_in_text_eq_isSome]
    exact hw
  obtain ⟨w, hw'⟩ := Option.isSome_iff_exists.mp hfs
  rw [hw']
  simp [process_message, ht, htr, hig, hneg, hw']

/-- Concrete instance for the keyword witness: one trigger word and one
prompt whose evaluation would score 5. -/
def instC3 : Instance :=
  { name := "n", words := ["hi"], prompts := [{ prompt := some "find it" }] }

/-- Claim C3, witness: the concrete message matches the trigger word
case-insensitively, the decision carries the word, and the scoring
oracle is never consulted. -/
theorem process_message_word_first_witness :
    process_message { openai_api_key := some "k" }
        (fun _ => .ok { similarity := 5 }) "2024-01-01" instC3
        { raw_text := some "oh HI there" } emptyTracker =
      { outcome := .decided true (some "hi") ScanSt.init,
        evaluated := [], stats := emptyTracker.increment "n" "2024-01-01" } :=
  process_message_word_first { openai_api_key := some "k" }
    (fun _ => .ok { similarity := 5 }) "2024-01-01" instC3
    { raw_text := some "oh HI there" } emptyTracker "oh HI there" rfl
    (by decide) (by decide) (by decide) (by decide)

/-! ## Claim C10: dropped messages leave the tracker untouched -/

/-- Claim C10: for any instance and any message with truthy text that
matches an ignore word or a negative word, process_message returns
before the statistics increment, so the tracker data (global,
per-instance and per-day counters alike) is exactly the input tracker
data. -/
theorem process_message_dropped_keeps_stats (cfg : PromptsConfig)
    (oracle : Nat → EvalCall) (day : String) (inst : Instance) (msg : Message)
    (stats : TrackerData) (t : String) (ht : msg.raw_text = some t)
    (hne : t ≠ "")
    (hdrop : word_in_text inst.ignore_words t = true ∨
      word_in_text inst.negative_words t = true) :
    (process_message cfg oracle day inst msg stats).stats = stats := by
  have htr := pyTruthy_some t hne
  rcases hdrop with h | h
  · simp [process_message, ht, htr, h]
  · by_cases hig : word_in_text inst.ignore_words t = true
    · simp [process_message, ht, htr, hig]
    · rw [Bool.not_eq_true] at hig
      simp [process_message, ht, htr, hig, h]

/-- Concrete instance for the negative-words witness. -/
def instC10 : Instance :=
  { name := "n", words := ["bad news"], negative_words := ["bad"] }

/-- Claim C10, witness: a message matching a negative word leaves the
tracker exactly as it was. -/
theorem process_message_dropped_keeps_stats_witness :
    (process_message { openai_api_key := some "k" }
        (fun _ => .ok { similarity := 5 }) "2024-01-01" instC10
        { raw_text := some "so BAD news" } emptyTracker).stats = emptyTracker :=
  process_message_dropped_keeps_stats { openai_api_key := some "k" }
    (fun _ => .ok { similarity := 5 }) "2024-01-01" instC10
    { raw_text := some "so BAD news" } emptyTracker "so BAD news" rfl
    (by decide) (Or.inr (by decide))

/-! ## Claim C7: refresh is monotonic on normalised chat ids -/

/-- Under a stable resolver (resolving an already-resolved positive id
returns it unchanged, the behaviour of the chat client on canonical
ids), to_event_chat_id is idempotent. -/
theorem to_event_chat_id_idem (resolve : Int → Option Int)
    (hstable : ∀ x y, resolve x = some y → 0 < y → resolve y = some y)
    (x : Int) :
    to_event_chat_id resolve (to_event_chat_id resolve x) =
      to_event_chat_id resolve x := by
  unfold to_event_chat_id
  by_cases hx : x ≤ 0
  · simp [hx]
  · rw [if_neg hx]
    cases hr : resolve x with
    | none =>
      have hneg : -x ≤ 0 := by omega
      simp [hneg]
    | some y =>
      by_cases hy : y ≤ 0
      · simp [hy]
      · have hys := hstable x y hr (by omega)
        simp [hy, hys]

/-- Claim C7: with unchanged folder membership and entity resolution
(the same folder id set and entity id set on both runs) and a stable
resolver, running the refresh a second time never removes an id present
after the first refresh: the refreshed set only grows. -/
theorem update_chat_ids_monotone (resolve : Int → Option Int)
    (folderIds entityIds chatIds : Finset Int)
    (hstable : ∀ x y, resolve x = some y → 0 < y → resolve y = some y) :
    update_instance_chat_ids resolve folderIds entityIds chatIds ⊆
      update_instance_chat_ids resolve folderIds entityIds
        (update_instance_chat_ids resolve folderIds entityIds chatIds) := by
  intro a ha
  unfold update_instance_chat_ids normalize_chat_ids at ha ⊢
  rw [Finset.mem_image] at ha
  obtain ⟨x, hx, rfl⟩ := ha
  rw [Finset.mem_image]
  refine ⟨to_event_chat_id resolve x, ?_, to_event_chat_id_idem resolve hstable x⟩
  rw [Finset.mem_union]
  left
  rw [Finset.mem_union]
  right
  exact Finset.mem_image_of_mem _ hx

/-- A resolver on which every lookup fails: every positive id falls
back to its negation. -/
def resolveNone : Int → Option Int := fun _ => none

/-- Claim C7, witness: a concrete double refresh (folder member 2, no
extra entities, previous ids 3 and -7) where the first refresh output is
contained in the second. -/
theorem update_chat_ids_monotone_witness :
    update_instance_chat_ids resolveNone {2} ∅ {3, -7} ⊆
      update_instance_chat_ids resolveNone {2} ∅
        (update_instance_chat_ids resolveNone {2} ∅ {3, -7}) :=
  update_chat_ids_monotone resolveNone {2} ∅ {3, -7}
    (fun _ _ h => nomatch h)

/-! ## Claim C4: reaction feedback forwarding lemmas -/

/-- A freshly inserted key is contained in the list. -/
theorem contains_insert_self (l : List (Int × Int)) (a : Int × Int) :
    (l.insert a).contains a = true := by
  simp [List.insert]
  by_cases h : a ∈ l <;> simp [h]

/-- The state recorded by a successful forward of the instance loop:
the key joins the set of the polarity that fired, positive first. -/
def loopPushed (pos neg : Bool) (key : Int × Int) (st : RState) : RState :=
  if pos then { st with fwdPos := st.fwdPos.insert key }
  else if neg then { st with fwdNeg := st.fwdNeg.insert key }
  else st

/-- The destinations forwarded to by the instance loop do not depend on
the dedup state (the state is only threaded into the returned state). -/
theorem reactionLoop_snd_const (r : String → Int) (g : Int → Int → Bool)
    (pos neg : Bool) (key : Int × Int) (pid : Int) (st st' : RState) :
    ∀ I : List RInstance,
      (reactionLoop r g pos neg key pid st I).2 =
        (reactionLoop r g pos neg key pid st' I).2
  | [] => rfl
  | inst :: rest => by
    simp only [reactionLoop]
    split_ifs <;>
      simp [reactionLoop_snd_const r g pos neg key pid st st' rest]

/-- The instance loop either does nothing, or forwards to exactly one
destination and records the key for the polarity of the update
(positive wins when both are set). -/
theorem reactionLoop_cases (r : String → Int) (g : Int → Int → Bool)
    (pos neg : Bool) (key : Int × Int) (pid : Int) (st : RState) :
    ∀ I : List RInstance,
      reactionLoop r g pos neg key pid st I = (st, []) ∨
      ∃ d, reactionLoop r g pos neg key pid st I = (loopPushed pos neg key st, [d])
  | [] => Or.inl rfl
  | inst :: rest => by
    have ih := reactionLoop_cases r g pos neg key pid st rest
    cases pos <;> cases neg <;>
      (simp only [reactionLoop, loopPushed]
       split_ifs <;>
        first
          | exact ih
          | exact Or.inl rfl
          | exact Or.inr ⟨_, rfl⟩
          | simp_all)

/-- Evaluation of handle_reaction on an update with no recognised
reaction: nothing happens. -/
theorem handle_reaction_eval_none (r : String → Int) (g : Int → Int → Bool)
    (I : List RInstance) (u : RUpdate) (st : RState)
    (hp : u.isPositive = false) (hn : u.isNegative = false) :
    handle_reaction r g I u st = (st, []) := by
  unfold handle_reaction
  rw [hp, hn]
  rfl

/-- Evaluation of handle_reaction on a negative-only update: the
negative dedup guard, then the instance loop with negative polarity. -/
theorem handle_reaction_eval_neg (r : String → Int) (g : Int → Int → Bool)
    (I : List RInstance) (u : RUpdate) (st : RState)
    (hp : u.isPositive = false) (hn : u.isNegative = true) :
    handle_reaction r g I u st =
      (if st.fwdNeg.contains (u.peer_id, u.msg_id) then (st, [])
       else reactionLoop r g false true (u.peer_id, u.msg_id) u.peer_id st I) := by
  unfold handle_reaction
  rw [hp, hn]
  rfl

/-- Evaluation of handle_reaction on a positive update: the positive
dedup guard, then the negative dedup guard when the update is also
negative, then the instance loop with positive polarity. -/
theorem handle_reaction_eval_pos (r : String → Int) (g : Int → Int → Bool)
    (I : List RInstance) (u : RUpdate) (st : RState)
    (hp : u.isPositive = true) :
    handle_reaction r g I u st =
      (if st.fwdPos.contains (u.peer_id, u.msg_id) then (st, [])
       else if u.isNegative && st.fwdNeg.contains (u.peer_id, u.msg_id) then (st, [])
       else reactionLoop r g true u.isNegative (u.peer_id, u.msg_id) u.peer_id st I) := by
  unfold handle_reaction
  rw [hp]
  rfl

/-- One run of handle_reaction: either a no-op, or a single forward that
records the key for the polarity that fired; a positive forward happens
only when the key was not yet recorded positive, a negative forward
only when the update is not positive and the key was not yet recorded
negative. -/
theorem handle_reaction_run (r : String → Int) (g : Int → Int → Bool)
    (I : List RInstance) (u : RUpdate) (st : RState) :
    handle_reaction r g I u st = (st, []) ∨
    (u.isPositive = true ∧
      st.fwdPos.contains (u.peer_id, u.msg_id) = false ∧
      ∃ d, handle_reaction r g I u st =
        ({ st with fwdPos := st.fwdPos.insert (u.peer_id, u.msg_id) }, [d])) ∨
    (u.isPositive = false ∧ u.isNegative = true ∧
      st.fwdNeg.contains (u.peer_id, u.msg_id) = false ∧
      ∃ d, handle_reaction r g I u st =
        ({ st with fwdNeg := st.fwdNeg.insert (u.peer_id, u.msg_id) }, [d])) := by
  cases hp : u.isPositive with
  | false =>
    cases hn : u.isNegative with
    | false => exact Or.inl (handle_reaction_eval_none r g I u st hp hn)
    | true =>
      have he := handle_reaction_eval_neg r g I u st hp hn
      cases hc : st.fwdNeg.contains (u.peer_id, u.msg_id) with
      | true =>
        rw [hc, if_pos rfl] at he
        exact Or.inl he
      | false =>
        rw [hc, if_neg Bool.false_ne_true] at he
        rcases reactionLoop_cases r g false true (u.peer_id, u.msg_id)
            u.peer_id st I with h | ⟨d, h⟩
        · exact Or.inl (he.trans h)
        · exact Or.inr (Or.inr ⟨rfl, rfl, rfl, d, he.trans h⟩)
  | true =>
    have he := handle_reaction_eval_pos r g I u st hp
    cases hc : st.fwdPos.contains (u.peer_id, u.msg_id) with
    | true =>
      rw [hc, if_pos rfl] at he
      exact Or.inl he
    | false =>
      rw [hc, if_neg Bool.false_ne_true] at he
      cases hg : (u.isNegative && st.fwdNeg.contains (u.peer_id, u.msg_id)) with
      | true =>
        rw [hg, if_pos rfl] at he
        exact Or.inl he
      | false =>
        rw [hg, if_neg Bool.false_ne_true] at he
        rcases reactionLoop_cases r g true u.isNegative (u.peer_id, u.msg_id)
            u.peer_id st I with h | ⟨d, h⟩
        · exact Or.inl (he.trans h)
        · exact Or.inr (Or.inl ⟨rfl, rfl, d, he.trans h⟩)

/-- Processing the same reaction update twice forwards nothing on the
second run: a forwarded polarity is recorded in the dedup state and the
guard skips it, and a run that forwarded nothing leaves the state
unchanged and repeats deterministically. -/
theorem handle_reaction_second_nil (r : String → Int) (g : Int → Int → Bool)
    (I : List RInstance) (u : RUpdate) (st : RState) :
    (handle_reaction r g I u (handle_reaction r g I u st).1).2 = [] := by
  rcases handle_reaction_run r g I u st with h | ⟨hp, hc, d, h⟩ | ⟨hp, hn, hc, d, h⟩
  · simp [h]
  · have h1 : (handle_reaction r g I u st).1 =
        { st with fwdPos := st.fwdPos.insert (u.peer_id, u.msg_id) } := by rw [h]
    rw [h1, handle_reaction_eval_pos r g I u _ hp]
    simp [contains_insert_self]
  · have h1 : (handle_reaction r g I u st).1 =
        { st with fwdNeg := st.fwdNeg.insert (u.peer_id, u.msg_id) } := by rw [h]
    rw [h1, handle_reaction_eval_neg r g I u _ hp hn]
    simp [contains_insert_self]

/-- A run on an update without negative polarity never changes the
negative dedup set. -/
theorem handle_reaction_fwdNeg_const (r : String → Int) (g : Int → Int → Bool)
    (I : List RInstance) (u : RUpdate) (st : RState)
    (hn : u.isNegative = false) :
    (handle_reaction r g I u st).1.fwdNeg = st.fwdNeg := by
  rcases handle_reaction_run r g I u st with h | ⟨hp, hc, d, h⟩ | ⟨hp, hn', hc, d, h⟩
  · rw [h]
  · rw [h]
  · rw [hn] at hn'
    exact absurd hn' Bool.false_ne_true

/-- The destinations forwarded for an update without positive polarity
only depend on the negative dedup set. -/
theorem handle_reaction_snd_of_fwdNeg (r : String → Int) (g : Int → Int → Bool)
    (I : List RInstance) (v : RUpdate) (st st' : RState)
    (hv : v.isPositive = false) (hEq : st'.fwdNeg = st.fwdNeg) :
    (handle_reaction r g I v st').2 = (handle_reaction r g I v st).2 := by
  cases hn : v.isNegative with
  | false =>
    rw [handle_reaction_eval_none r g I v st' hv hn,
      handle_reaction_eval_none r g I v st hv hn]
  | true =>
    rw [handle_reaction_eval_neg r g I v st' hv hn,
      handle_reaction_eval_neg r g I v st hv hn, hEq]
    cases hc : st.fwdNeg.contains (v.peer_id, v.msg_id) with
    | true => rfl
    | false =>
      rw [if_neg Bool.false_ne_true, if_neg Bool.false_ne_true]
      exact reactionLoop_snd_const r g false true (v.peer_id, v.msg_id)
        v.peer_id st' st I

/-- A positive-only update on a configured matching instance forwards
exactly once, to the true-positive destination, and records the key in
the positive dedup set. -/
theorem handle_reaction_pos_forward (r : String → Int) (g : Int → Int → Bool)
    (inst : RInstance) (u : RUpdate) (st : RState) (te tp : String)
    (hp : u.isPositive = true) (hn : u.isNegative = false)
    (hte : inst.target_entity = some te) (hte' : te ≠ "")
    (hr : r te = u.peer_id)
    (htp : inst.true_positive_entity = some tp) (htp' : tp ≠ "")
    (hg : g u.peer_id u.msg_id = true)
    (hc : st.fwdPos.contains (u.peer_id, u.msg_id) = false) :
    handle_reaction r g [inst] u st =
      ({ st with fwdPos := st.fwdPos.insert (u.peer_id, u.msg_id) }, [tp]) := by
  rw [handle_reaction_eval_pos r g [inst] u st hp, hc,
    if_neg Bool.false_ne_true, hn]
  rw [Bool.false_and, if_neg Bool.false_ne_true]
  simp [reactionLoop, hte, pyTruthy, hte', hr, htp, htp', hg]

/-- A negative-only update on a configured matching instance forwards
exactly once, to the false-positive destination, and records the key in
the negative dedup set. -/
theorem handle_reaction_neg_forward (r : String → Int) (g : Int → Int → Bool)
    (inst : RInstance) (u : RUpdate) (st : RState) (te fp : String)
    (hp : u.isPositive = false) (hn : u.isNegative = true)
    (hte : inst.target_entity = some te) (hte' : te ≠ "")
    (hr : r te = u.peer_id)
    (hfp : inst.false_positive_entity = some fp) (hfp' : fp ≠ "")
    (hg : g u.peer_id u.msg_id = true)
    (hc : st.fwdNeg.contains (u.peer_id, u.msg_id) = false) :
    handle_reaction r g [inst] u st =
      ({ st with fwdNeg := st.fwdNeg.insert (u.peer_id, u.msg_id) }, [fp]) := by
  rw [handle_reaction_eval_neg r g [inst] u st hp hn, hc,
    if_neg Bool.false_ne_true]
  simp [reactionLoop, hte, pyTruthy, hte', hr, hfp, hfp', hg]

/-- Claim C4: at-most-once feedback forwarding per (chat, message) and
polarity.  Part one: re-processing the same reaction update forwards
nothing the second time.  Part two: a run for an update without
negative polarity does not affect what a later update without positive
polarity forwards (the two polarities are independent).  Parts three
and four: on a matching configured instance, a positive-only update
with an unseen key forwards exactly once to the true-positive
destination, and a negative-only update with an unseen key forwards
exactly once to the false-positive destination, each recording its own
polarity key. -/
theorem handle_reaction_feedback_once (r : String → Int)
    (g : Int → Int → Bool) (I : List RInstance) (u v : RUpdate)
    (st : RState) :
    (handle_reaction r g I u (handle_reaction r g I u st).1).2 = [] ∧
    (u.isNegative = false → v.isPositive = false →
      (handle_reaction r g I v (handle_reaction r g I u st).1).2 =
        (handle_reaction r g I v st).2) ∧
    (∀ inst te tp, u.isPositive = true → u.isNegative = false →
      inst.target_entity = some te → te ≠ "" → r te = u.peer_id →
      inst.true_positive_entity = some tp → tp ≠ "" →
      g u.peer_id u.msg_id = true →
      st.fwdPos.contains (u.peer_id, u.msg_id) = false →
      handle_reaction r g [inst] u st =
        ({ st with fwdPos := st.fwdPos.insert (u.peer_id, u.msg_id) }, [tp])) ∧
    (∀ inst te fp, u.isPositive = false → u.isNegative = true →
      inst.target_entity = some te → te ≠ "" → r te = u.peer_id →
      inst.false_positive_entity = some fp → fp ≠ "" →
      g u.peer_id u.msg_id = true →
      st.fwdNeg.contains (u.peer_id, u.msg_id) = false →
      handle_reaction r g [inst] u st =
        ({ st with fwdNeg := st.fwdNeg.insert (u.peer_id, u.msg_id) }, [fp])) := by
  refine ⟨handle_reaction_second_nil r g I u st, ?_, ?_, ?_⟩
  · intro hn hv
    exact handle_reaction_snd_of_fwdNeg r g I v st _ hv
      (handle_reaction_fwdNeg_const r g I u st hn)
  · intro inst te tp hp hn hte hte' hr htp htp' hg hc
    exact handle_reaction_pos_forward r g inst u st te tp hp hn hte hte' hr
      htp htp' hg hc
  · intro inst te fp hp hn hte hte' hr hfp hfp' hg hc
    exact handle_reaction_neg_forward r g inst u st te fp hp hn hte hte' hr
      hfp hfp' hg hc

/-- Concrete reaction-scenario data for the feedback witness. -/
def rInst0 : RInstance :=
  { target_entity := some "t", true_positive_entity := some "tp",
    false_positive_entity := some "fp" }

/-- Resolver for the witness: every entity lives in chat 77. -/
def rEnt0 : String → Int := fun _ => 77

/-- Message lookup for the witness: every message is found. -/
def gMsg0 : Int → Int → Bool := fun _ _ => true

/-- A thumbs-up reaction on message 5 of chat 77. -/
def uPos0 : RUpdate := { peer_id := 77, msg_id := 5, emojis := ["👍"] }

/-- A thumbs-down reaction on message 5 of chat 77. -/
def uNeg0 : RUpdate := { peer_id := 77, msg_id := 5, emojis := ["👎"] }

/-- Claim C4, witness: on the concrete scenario the first positive
update forwards once to the true-positive destination, the identical
second positive update forwards nothing, and a following negative
update still forwards once to the false-positive destination. -/
theorem handle_reaction_feedback_once_witness :
    (handle_reaction rEnt0 gMsg0 [rInst0] uPos0 ({} : RState)).2 = ["tp"] ∧
    (handle_reaction rEnt0 gMsg0 [rInst0] uPos0
      (handle_reaction rEnt0 gMsg0 [rInst0] uPos0 ({} : RState)).1).2 = [] ∧
    (handle_reaction rEnt0 gMsg0 [rInst0] uNeg0
      (handle_reaction rEnt0 gMsg0 [rInst0] uPos0 ({} : RState)).1).2 = ["fp"] := by
  obtain ⟨hA, hB, hC, hD⟩ :=
    handle_reaction_feedback_once rEnt0 gMsg0 [rInst0] uPos0 uNeg0 ({} : RState)
  obtain ⟨_, _, _, hD'⟩ :=
    handle_reaction_feedback_once rEnt0 gMsg0 [rInst0] uNeg0 uPos0 ({} : RState)
  refine ⟨?_, hA, ?_⟩
  · rw [hC rInst0 "t" "tp" (by decide) (by decide) rfl (by decide) rfl rfl
      (by decide) rfl rfl]
  · rw [hB (by decide) (by decide),
      hD' rInst0 "t" "fp" (by decide) (by decide) rfl (by decide) rfl rfl
        (by decide) rfl rfl]
